import Mathlib

/-!
Shallow embedding of the FinancialForecastingDashboard pipeline
(scripts/database_setup.py, scripts/pipeline.py, scripts/run_forecasting.py)
and proofs about its specified behaviour.

Calendar months are modelled as month indices (months since an epoch),
valid because every date that reaches the forecasting stage is truncated
to month granularity by the mart model (DATE_TRUNC month). Decimal values
are modelled as rationals.
-/

set_option autoImplicit false

namespace FFD

/-! Process environment and Python truthiness of credential values. -/

/-- The five connection parameters read from the process environment;
`none` models an unset variable, `some ""` a set-but-empty one. -/
structure Env where
  DB_HOST : Option String
  DB_PORT : Option String
  DB_NAME : Option String
  DB_USER : Option String
  DB_PASS : Option String
deriving DecidableEq

/-- Python truthiness of an os.environ.get result: None and the empty
string are falsy, every other string truthy. -/
def truthy (v : Option String) : Bool :=
  match v with
  | none => false
  | some s => !(s == "")

/-- The guard all three entry points use: not all([...]) over the five
credential values, i.e. every variable is set and non-empty. -/
def allCredsSet (e : Env) : Bool :=
  truthy e.DB_HOST && truthy e.DB_PORT && truthy e.DB_NAME &&
    truthy e.DB_USER && truthy e.DB_PASS

/-! Model of scripts/database_setup.py. -/

/-- A row of the raw_saas_metrics table; each field is nullable because
ingest inserts record.get(...) which defaults a missing key to None. -/
structure RawRecord where
  customer_id : Option Int
  subscription_start_date : Option String
  monthly_recurring_revenue : Option ℚ
  churn_date : Option String
  plan_type : Option String
deriving DecidableEq

/-- Column declarations of raw_saas_metrics exactly as in the CREATE
TABLE statement of create_table. -/
def rawSaasMetricsSchema : List (String × String) :=
  [("customer_id", "INT PRIMARY KEY"),
   ("subscription_start_date", "DATE"),
   ("monthly_recurring_revenue", "DECIMAL"),
   ("churn_date", "DATE"),
   ("plan_type", "VARCHAR(50)")]

/-- A created table: its column declarations and its committed rows. -/
structure RawTable where
  schema : List (String × String)
  rows : List RawRecord
deriving DecidableEq

/-- Database state seen through one psycopg2 connection: the
raw_saas_metrics table (none when it does not exist) and the uncommitted
inserts of the connection's current transaction. -/
structure SetupDB where
  raw : Option RawTable
  pending : List RawRecord
deriving DecidableEq

/-- Errors the PostgreSQL layer can raise for the statements this script
executes (psycopg2.Error subclasses). -/
inductive PgError where
  | undefinedTable
  | duplicateTable
  | uniqueViolation (id : Int)
  | notNullViolation
deriving DecidableEq

/-- Committed rows of raw_saas_metrics (empty when the table is absent). -/
def committedRows (db : SetupDB) : List RawRecord :=
  match db.raw with
  | none => []
  | some t => t.rows

/-- Rows visible to statements inside the current transaction:
committed rows plus the transaction's own pending inserts. -/
def visibleRows (db : SetupDB) : List RawRecord :=
  committedRows db ++ db.pending

/-- conn.commit(): pending inserts become committed rows. -/
def commitConn (db : SetupDB) : SetupDB :=
  match db.raw with
  | none => { db with pending := [] }
  | some t => { raw := some { t with rows := t.rows ++ db.pending }, pending := [] }

/-- conn.rollback(): pending inserts are discarded. -/
def rollbackConn (db : SetupDB) : SetupDB :=
  { db with pending := [] }

/-- Semantics of CREATE TABLE [IF NOT EXISTS]: creating an existing table
errors unless IF NOT EXISTS was given, in which case it is a no-op. -/
def execCreateTable (db : SetupDB) (ifNotExists : Bool)
    (schema : List (String × String)) : Except PgError SetupDB :=
  match db.raw with
  | some _ => if ifNotExists then .ok db else .error .duplicateTable
  | none => .ok { db with raw := some ⟨schema, []⟩ }

/-- scripts/database_setup.py create_table: executes
CREATE TABLE IF NOT EXISTS raw_saas_metrics (...) and commits. -/
def create_table (db : SetupDB) : Except PgError SetupDB :=
  match execCreateTable db true rawSaasMetricsSchema with
  | .error e => .error e
  | .ok db2 => .ok (commitConn db2)

/-- Semantics of one INSERT INTO raw_saas_metrics: fails if the table is
absent, if the primary key is null, or if the primary key duplicates a
row visible in the transaction; otherwise adds a pending row. -/
def execInsert (db : SetupDB) (r : RawRecord) : Except PgError SetupDB :=
  match db.raw with
  | none => .error .undefinedTable
  | some _ =>
    match r.customer_id with
    | none => .error .notNullViolation
    | some id =>
      if (visibleRows db).any (fun q => decide (q.customer_id = some id)) then
        .error (.uniqueViolation id)
      else
        .ok { db with pending := db.pending ++ [r] }

/-- The cursor.execute loop of ingest_data: insert each record in order,
stopping at the first failure and returning the state reached. -/
def insertAll (db : SetupDB) (rs : List RawRecord) : SetupDB × Option PgError :=
  match rs with
  | [] => (db, none)
  | r :: rest =>
    match execInsert db r with
    | .error e => (db, some e)
    | .ok db2 => insertAll db2 rest

/-- Errors ingest_data catches and re-raises: a missing input file or a
database error from some insert. -/
inductive IngestError where
  | fileNotFound
  | pg (e : PgError)
deriving DecidableEq

/-- Outcome of ingest_data: either the batch was fully committed and its
size reported, or the transaction was rolled back and the underlying
error re-raised; both carry the resulting connection state. -/
inductive IngestResult where
  | ok (db : SetupDB) (count : Nat)
  | err (db : SetupDB) (e : IngestError)
deriving DecidableEq

/-- scripts/database_setup.py ingest_data: read the JSON file (none models
a missing file), insert every record, commit and report len(data); on a
missing file or any insert failure, roll back and re-raise. -/
def ingest_data (db : SetupDB) (file : Option (List RawRecord)) : IngestResult :=
  match file with
  | none => .err (rollbackConn db) .fileNotFound
  | some data =>
    match insertAll db data with
    | (db2, some e) => .err (rollbackConn db2) (.pg e)
    | (db2, none) => .ok (commitConn db2) data.length

/-! Side-effect events shared by the entry-point models. -/

/-- Observable file, network and process side effects of a run. -/
inductive IOEvent where
  | netConnect
  | sqlExec
  | fileOpen (path : String)
  | fileWrite (path : String)
  | makeDirs (path : String)
  | procRun (cmd : String)
deriving DecidableEq

/-- Outcome of running scripts/database_setup.py main. -/
structure RunOutcome where
  exitCode : Nat
  events : List IOEvent
  connOpened : Bool
  connClosed : Bool
deriving DecidableEq

/-- External world of a database_setup.py run: the environment, whether
psycopg2.connect succeeds, the database state at connect time, and the
content of raw_saas_data.json (none when the file is missing). -/
structure SetupWorld where
  env : Env
  connectOk : Bool
  db : SetupDB
  rawFile : Option (List RawRecord)
deriving DecidableEq

/-- Path of the ingestion input file. -/
def rawDataPath : String := "raw_saas_data.json"

/-- scripts/database_setup.py main: validate credentials (printing an
error and returning, hence exit code 0, when any is missing), connect,
create the table and ingest; every exception is caught and the finally
block closes the connection whenever it was opened. -/
def databaseSetupMain (w : SetupWorld) : RunOutcome :=
  if !(allCredsSet w.env) then
    { exitCode := 0, events := [], connOpened := false, connClosed := false }
  else if !w.connectOk then
    { exitCode := 0, events := [.netConnect], connOpened := false, connClosed := false }
  else
    match create_table w.db with
    | .error _ =>
      { exitCode := 0, events := [.netConnect, .sqlExec],
        connOpened := true, connClosed := true }
    | .ok db1 =>
      match ingest_data db1 w.rawFile with
      | .err _ _ =>
        { exitCode := 0, events := [.netConnect, .sqlExec, .fileOpen rawDataPath],
          connOpened := true, connClosed := true }
      | .ok _ _ =>
        { exitCode := 0, events := [.netConnect, .sqlExec, .fileOpen rawDataPath],
          connOpened := true, connClosed := true }

/-! Model of scripts/pipeline.py. -/

/-- Directory of the user-scoped dbt configuration
(os.path.expanduser of the home directory, then .dbt). -/
def dbtConfigDir : String := "HOME/.dbt"

/-- Path of the generated connection profile. -/
def profilesYmlPath : String := dbtConfigDir ++ "/profiles.yml"

/-- The dbt project directory, relative to the current working directory. -/
def projectDir : String := "financial_forecasting"

/-- Staging models directory created by run_dbt_pipeline. -/
def stagingDir : String := projectDir ++ "/models/staging"

/-- Marts models directory created by run_dbt_pipeline. -/
def martsDir : String := projectDir ++ "/models/marts"

/-- Path of the source declaration artifact. -/
def sourcesYmlPath : String := stagingDir ++ "/sources.yml"

/-- Path of the staging transformation artifact. -/
def stagingSqlPath : String := stagingDir ++ "/stg_raw_saas_metrics_data.sql"

/-- Path of the schema/test declaration artifact. -/
def schemaYmlPath : String := stagingDir ++ "/schema.yml"

/-- Path of the mart transformation artifact. -/
def martsSqlPath : String := martsDir ++ "/fact_monthly_revenue.sql"

/-- Path of the dbt project configuration the stage reads and rewrites. -/
def dbtProjectYmlPath : String := projectDir ++ "/dbt_project.yml"

/-- Result of a stage that may let a Python exception propagate. -/
inductive StageResult where
  | completed
  | uncaught (exc : String)
deriving DecidableEq

/-- Events performed by a stage together with how it ended. -/
structure StageRun where
  events : List IOEvent
  result : StageResult
deriving DecidableEq

/-- scripts/pipeline.py create_dbt_profiles: ensure the configuration
directory exists and write profiles.yml. -/
def create_dbt_profiles : StageRun :=
  ⟨[.makeDirs dbtConfigDir, .fileWrite profilesYmlPath], .completed⟩

/-- scripts/pipeline.py run_dbt_pipeline: create the model directories,
write the source, staging, schema and mart artifacts, then open
dbt_project.yml for reading — raising an uncaught FileNotFoundError when
it is absent — rewrite it, and finally run dbt with check=True (an engine
failure raises an uncaught CalledProcessError). -/
def run_dbt_pipeline (dbtProjectYml : Option String) (dbtRunOk : Bool) : StageRun :=
  let ev := [IOEvent.makeDirs stagingDir, IOEvent.makeDirs martsDir,
             IOEvent.fileWrite sourcesYmlPath, IOEvent.fileWrite stagingSqlPath,
             IOEvent.fileWrite schemaYmlPath, IOEvent.fileWrite martsSqlPath]
  match dbtProjectYml with
  | none => ⟨ev ++ [.fileOpen dbtProjectYmlPath], .uncaught "FileNotFoundError"⟩
  | some _ =>
    let ev2 := ev ++ [IOEvent.fileOpen dbtProjectYmlPath,
                      IOEvent.fileWrite dbtProjectYmlPath, IOEvent.procRun "dbt run"]
    if dbtRunOk then ⟨ev2, .completed⟩ else ⟨ev2, .uncaught "CalledProcessError"⟩

/-- External world of a pipeline.py run. -/
structure PipelineWorld where
  env : Env
  dbtProjectYml : Option String
  dbtRunOk : Bool
deriving DecidableEq

/-- Outcome of running scripts/pipeline.py main: its process exit code
(1 for both sys.exit(1) and an uncaught exception), the uncaught
exception if any, and the side effects performed. -/
structure PipelineOutcome where
  exitCode : Nat
  uncaughtExc : Option String
  events : List IOEvent
deriving DecidableEq

/-- scripts/pipeline.py main: validate credentials (sys.exit(1) before
any I/O when one is missing), then create_dbt_profiles and
run_dbt_pipeline; nothing catches their exceptions. -/
def pipelineMain (w : PipelineWorld) : PipelineOutcome :=
  if !(allCredsSet w.env) then ⟨1, none, []⟩
  else
    let st := run_dbt_pipeline w.dbtProjectYml w.dbtRunOk
    match st.result with
    | .completed => ⟨0, none, create_dbt_profiles.events ++ st.events⟩
    | .uncaught exc => ⟨1, some exc, create_dbt_profiles.events ++ st.events⟩

/-! Model of scripts/run_forecasting.py. -/

/-- An in-memory pandas DataFrame: named columns and rows of cells.
Cells are rationals; a timestamp cell holds the month index of a
month-start date. -/
structure DataFrame where
  cols : List String
  rows : List (List ℚ)
deriving DecidableEq

/-- Position of a column name in a column list (pandas label lookup). -/
def colIdx (cols : List String) (name : String) : Option Nat :=
  match cols with
  | [] => none
  | c :: rest => if c = name then some 0 else (colIdx rest name).map (fun i => i + 1)

/-- The values of one named column, in row order. -/
def colValues (df : DataFrame) (name : String) : List ℚ :=
  match colIdx df.cols name with
  | none => []
  | some i => df.rows.map (fun r => r.getD i 0)

/-- Insert one mart row into a month-sorted list (the comparison step of
the SQL ORDER BY on subscription_month). -/
def insertByMonth (p : ℚ × ℚ) : List (ℚ × ℚ) → List (ℚ × ℚ)
  | [] => [p]
  | q :: rest => if p.1 ≤ q.1 then p :: q :: rest else q :: insertByMonth p rest

/-- ORDER BY subscription_month over the mart table rows. -/
def sortByMonth (l : List (ℚ × ℚ)) : List (ℚ × ℚ) :=
  l.foldr insertByMonth []

/-- scripts/run_forecasting.py fetch_and_prepare_data: SELECT
subscription_month, monthly_recurring_revenue FROM fact_monthly_revenue
ORDER BY subscription_month, then rename the columns to ds and y.
Timezone stripping is the identity in the month-index model.
The function performs no emptiness check. -/
def fetch_and_prepare_data (mart : List (ℚ × ℚ)) : DataFrame :=
  { cols := ["ds", "y"],
    rows := (sortByMonth mart).map (fun p => [p.1, p.2]) }

/-- The one error the model-fitting stage can raise in this model:
Prophet.fit raises a ValueError when the history has fewer than two
rows. There is no history-length check anywhere in the script itself. -/
inductive FitError where
  | tooFewRows
deriving DecidableEq

/-- Columns of the DataFrame returned by Prophet.predict for a model with
yearly seasonality, modelled from the library's documented output. -/
def prophetPredictCols : List String :=
  ["ds", "trend", "yhat_lower", "yhat_upper", "trend_lower", "trend_upper",
   "additive_terms", "additive_terms_lower", "additive_terms_upper",
   "yearly", "yearly_lower", "yearly_upper",
   "multiplicative_terms", "multiplicative_terms_lower",
   "multiplicative_terms_upper", "yhat"]

/-- One Prophet.predict output row for timestamp d. The numeric estimates
come from the library's optimizer, which is external to this repository
and pinned by no claim; the model carries the timestamp exactly and
leaves the estimate cells at zero. -/
def predictRow (d : ℚ) : List ℚ :=
  d :: List.replicate 15 0

/-- Maximum of a pandas series (the .max() of the history ds column). -/
def seriesMax (xs : List ℚ) : ℚ :=
  match xs with
  | [] => 0
  | x :: rest => rest.foldl max x

/-- Prophet.make_future_dataframe(periods, freq=MS, include_history=True):
a month-start date_range of periods+1 points anchored at the last history
date (month-start in this pipeline, so the range starts there and steps
by one month), filtered to dates strictly after the last date, truncated
to the first periods entries, and appended to the history dates. -/
def make_future_dataframe (history : List ℚ) (periods : Nat) : List ℚ :=
  let lastDate := seriesMax history
  let dates := (List.range (periods + 1)).map (fun (k : Nat) => lastDate + (k : ℚ))
  let future := (dates.filter (fun d => decide (lastDate < d))).take periods
  history ++ future

/-- scripts/run_forecasting.py run_prophet_forecast: fit the model on the
prepared frame (the library rejects a history of fewer than two rows),
then predict over make_future_dataframe(periods=24, freq=MS). -/
def run_prophet_forecast (prophet_df : DataFrame) : Except FitError DataFrame :=
  if prophet_df.rows.length < 2 then .error .tooFewRows
  else
    let future := make_future_dataframe (colValues prophet_df "ds") 24
    .ok { cols := prophetPredictCols, rows := future.map predictRow }

/-- pandas column selection df[[names]]: keep the named columns, in the
given order, projecting every row accordingly. -/
def DataFrame.selectCols (df : DataFrame) (names : List String) : DataFrame :=
  { cols := names,
    rows := df.rows.map (fun r => names.map (fun n =>
      match colIdx df.cols n with
      | some i => r.getD i 0
      | none => 0)) }

/-- pandas df.rename over columns: apply the old-to-new mapping to every
column label, leaving unmapped labels unchanged. -/
def DataFrame.renameCols (df : DataFrame) (m : List (String × String)) : DataFrame :=
  { df with cols := df.cols.map (fun c =>
      match m.find? (fun p => p.1 == c) with
      | some p => p.2
      | none => c) }

/-- The cleaning step of ingest_forecast_to_db: narrow the engine output
to ds, yhat, yhat_lower, yhat_upper and rename yhat to forecasted_mrr and
ds to subscription_month (the bound columns are not renamed). -/
def cleanForecastFrame (forecast : DataFrame) : DataFrame :=
  (forecast.selectCols ["ds", "yhat", "yhat_lower", "yhat_upper"]).renameCols
    [("yhat", "forecasted_mrr"), ("ds", "subscription_month")]

/-- Tables of the PostgreSQL database reachable through the SQLAlchemy
engine, keyed by table name. -/
structure ForecastStore where
  tables : List (String × DataFrame)
deriving DecidableEq

/-- pandas DataFrame.to_sql with if_exists=replace: drop any existing
table of that name and write the frame wholesale as the new table. -/
def to_sql_replace (store : ForecastStore) (name : String) (df : DataFrame) :
    ForecastStore :=
  ⟨(store.tables.filter (fun p => !(p.1 == name))) ++ [(name, df)]⟩

/-- Name of the persisted forecast table. -/
def forecastTableName : String := "fact_monthly_revenue_forecast"

/-- scripts/run_forecasting.py ingest_forecast_to_db: clean the forecast
frame and write it into fact_monthly_revenue_forecast with
if_exists=replace. -/
def ingest_forecast_to_db (forecast : DataFrame) (store : ForecastStore) :
    ForecastStore :=
  to_sql_replace store forecastTableName (cleanForecastFrame forecast)

/-- Look a table up by name in the store. -/
def lookupTable (s : ForecastStore) (name : String) : Option DataFrame :=
  (s.tables.find? (fun p => p.1 == name)).map (fun p => p.2)

/-- Errors a forecasting run can hit after connecting, all caught by the
generic except clause of main. -/
inductive ForecastRunError where
  | missingMartTable
  | fitFailure (e : FitError)
deriving DecidableEq

/-- External world of a run_forecasting.py run: environment, connect
outcome, the mart table content (none when the table does not exist) and
the database tables the publisher writes into. -/
structure ForecastWorld where
  env : Env
  connectOk : Bool
  mart : Option (List (ℚ × ℚ))
  store : ForecastStore
deriving DecidableEq

/-- Outcome of running scripts/run_forecasting.py main. -/
structure ForecastOutcome where
  exitCode : Nat
  events : List IOEvent
  fitAttempted : Bool
  error : Option ForecastRunError
  connOpened : Bool
  connClosed : Bool
  store : ForecastStore
deriving DecidableEq

/-- scripts/run_forecasting.py main: get_db_credentials exits 1 before
any I/O when a variable is missing; otherwise connect, fetch, fit and
publish, with every exception caught and turned into sys.exit(1) and the
finally block closing the connection whenever it was opened. -/
def forecastingMain (w : ForecastWorld) : ForecastOutcome :=
  if !(allCredsSet w.env) then
    { exitCode := 1, events := [], fitAttempted := false, error := none,
      connOpened := false, connClosed := false, store := w.store }
  else if !w.connectOk then
    { exitCode := 1, events := [.netConnect], fitAttempted := false, error := none,
      connOpened := false, connClosed := false, store := w.store }
  else
    match w.mart with
    | none =>
      { exitCode := 1, events := [.netConnect, .sqlExec], fitAttempted := false,
        error := some .missingMartTable, connOpened := true, connClosed := true,
        store := w.store }
    | some mart =>
      match run_prophet_forecast (fetch_and_prepare_data mart) with
      | .error e =>
        { exitCode := 1, events := [.netConnect, .sqlExec], fitAttempted := true,
          error := some (.fitFailure e), connOpened := true, connClosed := true,
          store := w.store }
      | .ok forecast =>
        { exitCode := 0, events := [.netConnect, .sqlExec, .sqlExec],
          fitAttempted := true, error := none, connOpened := true,
          connClosed := true, store := ingest_forecast_to_db forecast w.store }

/-- Whether an Except value is a success. -/
def exceptOk {ε α : Type} (e : Except ε α) : Bool :=
  match e with
  | .ok _ => true
  | .error _ => false

/-- Whether an event is an invocation of an external process. -/
def isProcRun (ev : IOEvent) : Bool :=
  match ev with
  | .procRun _ => true
  | _ => false

/-! Concrete probe inputs used to instantiate the theorems. -/

/-- An environment with all five variables set and non-empty. -/
def envFull : Env := ⟨some "h", some "5432", some "d", some "u", some "p"⟩

/-- An environment whose DB_PORT is unset. -/
def envMissingPort : Env := ⟨some "h", none, some "d", some "u", some "p"⟩

/-- A database in which raw_saas_metrics already exists, holding one row. -/
def dbWithTable : SetupDB :=
  ⟨some ⟨rawSaasMetricsSchema, [⟨some 1, some "2023-01-15", some 100, none, some "pro"⟩]⟩, []⟩

/-- A database in which raw_saas_metrics does not exist yet. -/
def dbNoTable : SetupDB := ⟨none, []⟩

/-- A prepared two-month series. -/
def probeDF : DataFrame := ⟨["ds", "y"], [[600, 10], [601, 12]]⟩

/-- A prepared three-month series: far below two yearly cycles. -/
def shortHistoryDF : DataFrame := ⟨["ds", "y"], [[600, 10], [601, 12], [602, 11]]⟩

/-- The engine output frame for the probe series. -/
def probeForecast : DataFrame :=
  ⟨prophetPredictCols, (make_future_dataframe (colValues probeDF "ds") 24).map predictRow⟩

/-- A forecasting world whose mart table exists but is empty. -/
def emptyMartWorld : ForecastWorld := ⟨envFull, true, some [], ⟨[]⟩⟩

/-- A healthy database_setup world. -/
def setupWorld1 : SetupWorld := ⟨envFull, true, dbNoTable, some []⟩

/-- A healthy forecasting world with a two-month mart table. -/
def forecastWorld1 : ForecastWorld := ⟨envFull, true, some [(600, 10), (601, 12)], ⟨[]⟩⟩

/-- A pipeline world with credentials set but no dbt_project.yml file. -/
def pipelineWorldNoProject : PipelineWorld := ⟨envFull, none, true⟩

/-! Claim C1: behaviour of the entry points when a credential is missing. -/

/-- C1 counterexample: with DB_PORT unset the database-setup entry point
performs no file or network I/O, but its process exit code is 0, not a
non-zero code (main prints an error and returns normally). -/
theorem databaseSetup_missing_env_exit_zero :
    (databaseSetupMain ⟨envMissingPort, true, dbNoTable, none⟩).exitCode = 0 ∧
    (databaseSetupMain ⟨envMissingPort, true, dbNoTable, none⟩).events = [] :=
  ⟨rfl, rfl⟩

/-- C1 amended: whenever any of the five variables is unset or empty,
each entry point aborts before any file or network I/O; the
transformation pipeline and the forecasting entry points exit with code
1, while the database-setup entry point returns normally with exit
code 0. -/
theorem missing_env_aborts_before_io (w1 : SetupWorld) (w2 : PipelineWorld)
    (w3 : ForecastWorld) (h1 : allCredsSet w1.env = false)
    (h2 : allCredsSet w2.env = false) (h3 : allCredsSet w3.env = false) :
    (databaseSetupMain w1).exitCode = 0 ∧ (databaseSetupMain w1).events = [] ∧
    (pipelineMain w2).exitCode = 1 ∧ (pipelineMain w2).events = [] ∧
    (forecastingMain w3).exitCode = 1 ∧ (forecastingMain w3).events = [] := by
  unfold databaseSetupMain pipelineMain forecastingMain
  simp [h1, h2, h3]

/-- Instantiation of the amended C1 statement at a concrete environment
lacking DB_PORT. -/
theorem missing_env_aborts_before_io_witness :
    allCredsSet envMissingPort = false ∧
    ((databaseSetupMain ⟨envMissingPort, true, dbNoTable, none⟩).exitCode = 0 ∧
     (databaseSetupMain ⟨envMissingPort, true, dbNoTable, none⟩).events = [] ∧
     (pipelineMain ⟨envMissingPort, none, true⟩).exitCode = 1 ∧
     (pipelineMain ⟨envMissingPort, none, true⟩).events = [] ∧
     (forecastingMain ⟨envMissingPort, true, some [], ⟨[]⟩⟩).exitCode = 1 ∧
     (forecastingMain ⟨envMissingPort, true, some [], ⟨[]⟩⟩).events = []) :=
  ⟨rfl, missing_env_aborts_before_io ⟨envMissingPort, true, dbNoTable, none⟩
    ⟨envMissingPort, none, true⟩ ⟨envMissingPort, true, some [], ⟨[]⟩⟩ rfl rfl rfl⟩

/-! Claim C3: idempotence of schema creation. -/

/-- C3: create_table never errors; when raw_saas_metrics already exists
it returns the state unchanged (schema and rows intact); and running it
twice yields exactly the result of running it once. -/
theorem create_table_idempotent (db : SetupDB) (hpend : db.pending = []) :
    exceptOk (create_table db) = true ∧
    (∀ t, db.raw = some t → create_table db = .ok db) ∧
    (create_table db >>= create_table) = create_table db := by
  obtain ⟨raw, pending⟩ := db
  simp only at hpend
  subst hpend
  cases raw with
  | none =>
    refine ⟨rfl, by intro t h; exact absurd h (by simp), ?_⟩
    simp [create_table, execCreateTable, commitConn, Bind.bind, Except.bind]
  | some t =>
    have hsame : create_table ⟨some t, []⟩ = .ok ⟨some t, []⟩ := by
      simp [create_table, execCreateTable, commitConn]
    refine ⟨by rw [hsame]; rfl, by intro t2 _; rw [hsame], ?_⟩
    rw [hsame]
    show create_table ⟨some t, []⟩ = .ok ⟨some t, []⟩
    exact hsame

/-- Instantiation of C3 at a database where the table exists with a row. -/
theorem create_table_idempotent_witness :
    dbWithTable.pending = [] ∧
    (exceptOk (create_table dbWithTable) = true ∧
     (∀ t, dbWithTable.raw = some t → create_table dbWithTable = .ok dbWithTable) ∧
     (create_table dbWithTable >>= create_table) = create_table dbWithTable) :=
  ⟨rfl, create_table_idempotent dbWithTable rfl⟩

/-! Claim C4: behaviour of the forecast loader on an empty mart table. -/

/-- C4 counterexample: with an empty mart table the loader returns an
empty frame without raising anything, and control reaches the
model-fitting stage, which fails with the generic library error. -/
theorem empty_mart_reaches_fit :
    fetch_and_prepare_data [] = ⟨["ds", "y"], []⟩ ∧
    (forecastingMain emptyMartWorld).fitAttempted = true ∧
    (forecastingMain emptyMartWorld).error = some (.fitFailure .tooFewRows) :=
  ⟨rfl, by decide, by decide⟩

/-- C4 amended: the loader performs no emptiness check; with an empty
mart table the prepared frame is passed to the fitting stage, which is
reached and fails with the model library's generic too-few-rows error,
so the run exits 1 with no dedicated load-time rejection. -/
theorem empty_mart_passes_through (w : ForecastWorld)
    (hcreds : allCredsSet w.env = true) (hconn : w.connectOk = true)
    (hmart : w.mart = some []) :
    (forecastingMain w).fitAttempted = true ∧
    (forecastingMain w).error = some (.fitFailure .tooFewRows) ∧
    (forecastingMain w).exitCode = 1 := by
  unfold forecastingMain
  rw [hmart]
  simp [hcreds, hconn, fetch_and_prepare_data, sortByMonth, run_prophet_forecast]

/-- Instantiation of the amended C4 statement at the empty-mart world. -/
theorem empty_mart_passes_through_witness :
    allCredsSet emptyMartWorld.env = true ∧ emptyMartWorld.connectOk = true ∧
    ((forecastingMain emptyMartWorld).fitAttempted = true ∧
     (forecastingMain emptyMartWorld).error = some (.fitFailure .tooFewRows) ∧
     (forecastingMain emptyMartWorld).exitCode = 1) :=
  ⟨rfl, rfl, empty_mart_passes_through emptyMartWorld rfl rfl rfl⟩

/-! Claim C6: destructive replacement semantics of publishing. -/

/-- Searching for a name among the entries that survived filtering that
very name out finds nothing. -/
lemma find?_filter_out_name (l : List (String × DataFrame)) (n : String) :
    (l.filter (fun p => !(p.1 == n))).find? (fun p => p.1 == n) = none := by
  induction l with
  | nil => rfl
  | cons x xs ih =>
    by_cases h : x.1 = n
    · simp [List.filter_cons, h, ih]
    · simp [List.filter_cons, h, List.find?_cons, ih]

/-- After to_sql_replace the looked-up table is exactly the written frame. -/
lemma lookupTable_to_sql_replace (s : ForecastStore) (n : String) (df : DataFrame) :
    lookupTable (to_sql_replace s n df) n = some df := by
  unfold lookupTable to_sql_replace
  rw [List.find?_append, find?_filter_out_name]
  simp

/-- C6: publishing twice leaves the forecast table holding exactly the
cleaned second output — no rows of the first run survive — and its row
count equals the second output's row count. -/
theorem publish_twice_replaces (store : ForecastStore) (df1 df2 : DataFrame) :
    lookupTable (ingest_forecast_to_db df2 (ingest_forecast_to_db df1 store))
        forecastTableName = some (cleanForecastFrame df2) ∧
    (cleanForecastFrame df2).rows.length = df2.rows.length := by
  constructor
  · exact lookupTable_to_sql_replace _ _ _
  · simp [cleanForecastFrame, DataFrame.selectCols, DataFrame.renameCols]

/-! Claim C7: column narrowing and renaming in the publisher. -/

/-- C7 counterexample: the persisted columns are subscription_month,
forecasted_mrr, yhat_lower and yhat_upper; the uncertainty columns keep
their engine names, and forecasted_mrr_lower appears nowhere. -/
theorem cleanForecast_keeps_engine_bound_names :
    (cleanForecastFrame probeForecast).cols
      = ["subscription_month", "forecasted_mrr", "yhat_lower", "yhat_upper"] ∧
    (cleanForecastFrame probeForecast).cols.contains "forecasted_mrr_lower" = false ∧
    (cleanForecastFrame probeForecast).cols.contains "forecasted_mrr_upper" = false :=
  ⟨rfl, rfl, rfl⟩

/-- C7 amended: the publisher narrows any engine output to exactly four
columns and renames only the timestamp and the point estimate — to
subscription_month and forecasted_mrr — while the uncertainty bounds
keep their engine names yhat_lower and yhat_upper; each row keeps the
cells of the four selected columns. -/
theorem cleanForecast_narrows_and_renames (df : DataFrame)
    (hcols : df.cols = prophetPredictCols) :
    (cleanForecastFrame df).cols
      = ["subscription_month", "forecasted_mrr", "yhat_lower", "yhat_upper"] ∧
    (cleanForecastFrame df).rows
      = df.rows.map (fun r => [r.getD 0 0, r.getD 15 0, r.getD 2 0, r.getD 3 0]) := by
  obtain ⟨cols, rows⟩ := df
  simp only at hcols
  subst hcols
  exact ⟨rfl, rfl⟩

/-- Instantiation of the amended C7 statement at the probe engine output. -/
theorem cleanForecast_narrows_and_renames_witness :
    probeForecast.cols = prophetPredictCols ∧
    ((cleanForecastFrame probeForecast).cols
       = ["subscription_month", "forecasted_mrr", "yhat_lower", "yhat_upper"] ∧
     (cleanForecastFrame probeForecast).rows
       = probeForecast.rows.map (fun r => [r.getD 0 0, r.getD 15 0, r.getD 2 0, r.getD 3 0])) :=
  ⟨rfl, cleanForecast_narrows_and_renames probeForecast rfl⟩

/-! Claim C8: absence of a minimum-history guard in the engine wrapper. -/

/-- C8 counterexample: a three-month history, far below two yearly
cycles, is fitted and produces a forecast; no insufficient-history
rejection occurs. -/
theorem short_history_still_fits :
    exceptOk (run_prophet_forecast shortHistoryDF) = true := by
  decide

/-- C8 amended: the script has no minimum-history check and no dedicated
insufficient-history error: every series with at least two rows is
fitted and yields a forecast, and only a series with fewer than two rows
fails, with the model library's generic error. -/
theorem no_min_history_check (df : DataFrame) :
    (2 ≤ df.rows.length → exceptOk (run_prophet_forecast df) = true) ∧
    (df.rows.length < 2 → run_prophet_forecast df = .error .tooFewRows) := by
  constructor
  · intro h
    simp [run_prophet_forecast, Nat.not_lt.mpr h, exceptOk]
  · intro h
    simp [run_prophet_forecast, h]

/-- Instantiation of the amended C8 statement at a three-month series
and at an empty series. -/
theorem no_min_history_check_witness :
    (2 ≤ shortHistoryDF.rows.length ∧
     exceptOk (run_prophet_forecast shortHistoryDF) = true) ∧
    ((DataFrame.mk ["ds", "y"] []).rows.length < 2 ∧
     run_prophet_forecast ⟨["ds", "y"], []⟩ = .error .tooFewRows) :=
  ⟨⟨by decide, (no_min_history_check shortHistoryDF).1 (by decide)⟩,
   ⟨by decide, (no_min_history_check ⟨["ds", "y"], []⟩).2 (by decide)⟩⟩

/-! Claim C9: guaranteed connection release. -/

/-- C9: in both the database-setup and the forecasting entry points,
whenever a connection was acquired the run ends with it closed,
whatever any later stage did. -/
theorem connections_always_released (w1 : SetupWorld) (w3 : ForecastWorld) :
    ((databaseSetupMain w1).connOpened = true → (databaseSetupMain w1).connClosed = true) ∧
    ((forecastingMain w3).connOpened = true → (forecastingMain w3).connClosed = true) := by
  constructor
  · unfold databaseSetupMain
    repeat' split
    all_goals simp
  · unfold forecastingMain
    repeat' split
    all_goals simp

/-- Instantiation of C9 at healthy worlds that do open a connection. -/
theorem connections_always_released_witness :
    (databaseSetupMain setupWorld1).connClosed = true ∧
    (forecastingMain forecastWorld1).connClosed = true :=
  ⟨(connections_always_released setupWorld1 forecastWorld1).1 (by decide),
   (connections_always_released setupWorld1 forecastWorld1).2 (by decide)⟩

/-! Claim C10: the transformation runner requires an existing
dbt_project.yml and fails late. -/

/-- C10: with credentials set and dbt_project.yml absent, the run dies
with an uncaught FileNotFoundError and exit code 1, after the profile,
source, staging, schema and mart artifacts were all written, and the
external transformation engine is never invoked. -/
theorem dbt_project_yml_required (w : PipelineWorld)
    (hcreds : allCredsSet w.env = true) (habsent : w.dbtProjectYml = none) :
    (pipelineMain w).uncaughtExc = some "FileNotFoundError" ∧
    (pipelineMain w).exitCode = 1 ∧
    IOEvent.fileWrite profilesYmlPath ∈ (pipelineMain w).events ∧
    IOEvent.fileWrite sourcesYmlPath ∈ (pipelineMain w).events ∧
    IOEvent.fileWrite stagingSqlPath ∈ (pipelineMain w).events ∧
    IOEvent.fileWrite schemaYmlPath ∈ (pipelineMain w).events ∧
    IOEvent.fileWrite martsSqlPath ∈ (pipelineMain w).events ∧
    (pipelineMain w).events.any isProcRun = false := by
  have h : pipelineMain w =
      ⟨1, some "FileNotFoundError",
       [.makeDirs dbtConfigDir, .fileWrite profilesYmlPath,
        .makeDirs stagingDir, .makeDirs martsDir,
        .fileWrite sourcesYmlPath, .fileWrite stagingSqlPath,
        .fileWrite schemaYmlPath, .fileWrite martsSqlPath,
        .fileOpen dbtProjectYmlPath]⟩ := by
    unfold pipelineMain run_dbt_pipeline create_dbt_profiles
    rw [habsent]
    simp [hcreds]
  rw [h]
  refine ⟨rfl, rfl, ?_, ?_, ?_, ?_, ?_, rfl⟩ <;> decide

/-- Instantiation of C10 at a world with credentials and no
dbt_project.yml. -/
theorem dbt_project_yml_required_witness :
    allCredsSet pipelineWorldNoProject.env = true ∧
    pipelineWorldNoProject.dbtProjectYml = none ∧
    ((pipelineMain pipelineWorldNoProject).uncaughtExc = some "FileNotFoundError" ∧
     (pipelineMain pipelineWorldNoProject).exitCode = 1 ∧
     IOEvent.fileWrite profilesYmlPath ∈ (pipelineMain pipelineWorldNoProject).events ∧
     IOEvent.fileWrite sourcesYmlPath ∈ (pipelineMain pipelineWorldNoProject).events ∧
     IOEvent.fileWrite stagingSqlPath ∈ (pipelineMain pipelineWorldNoProject).events ∧
     IOEvent.fileWrite schemaYmlPath ∈ (pipelineMain pipelineWorldNoProject).events ∧
     IOEvent.fileWrite martsSqlPath ∈ (pipelineMain pipelineWorldNoProject).events ∧
     (pipelineMain pipelineWorldNoProject).events.any isProcRun = false) :=
  ⟨rfl, rfl, dbt_project_yml_required pipelineWorldNoProject rfl rfl⟩

/-! Claim C2: ingestion is all-or-nothing. -/

/-- Committed rows only depend on the table state. -/
lemma committedRows_congr {a b : SetupDB} (h : a.raw = b.raw) :
    committedRows a = committedRows b := by
  unfold committedRows
  rw [h]

/-- Committing always empties the pending inserts. -/
lemma commitConn_pending (db : SetupDB) : (commitConn db).pending = [] := by
  unfold commitConn
  cases hdb : db.raw <;> simp

/-- Committing over an existing table appends the pending inserts to the
committed rows. -/
lemma commitConn_committedRows (db : SetupDB) (t : RawTable) (h : db.raw = some t) :
    committedRows (commitConn db) = committedRows db ++ db.pending := by
  unfold commitConn committedRows
  simp [h]

/-- A successful single insert only appends the record to the pending
inserts, and certifies that its key is non-null and fresh. -/
lemma execInsert_ok_spec (db db2 : SetupDB) (r : RawRecord)
    (h : execInsert db r = .ok db2) :
    db2 = { db with pending := db.pending ++ [r] } ∧
    ∃ id, r.customer_id = some id ∧
      ∀ q ∈ visibleRows db, q.customer_id ≠ some id := by
  unfold execInsert at h
  split at h
  · exact absurd h (by simp)
  · split at h
    · exact absurd h (by simp)
    · rename_i id hcid
      split at h
      · exact absurd h (by simp)
      · rename_i hany
        simp only [Except.ok.injEq] at h
        refine ⟨h.symm, id, hcid, ?_⟩
        intro q hq hcontra
        exact hany (List.any_eq_true.mpr ⟨q, hq, by simp [hcontra]⟩)

/-- The insert loop never touches the committed table state. -/
lemma insertAll_raw (rs : List RawRecord) :
    ∀ db : SetupDB, ((insertAll db rs).1).raw = db.raw := by
  induction rs with
  | nil => intro db; rfl
  | cons r rest ih =>
    intro db
    unfold insertAll
    cases hx : execInsert db r with
    | error e => rfl
    | ok dbr =>
      have hspec := execInsert_ok_spec db dbr r hx
      rw [ih dbr, hspec.1]

/-- A fully successful insert loop leaves the committed rows alone,
queues exactly the batch, and certifies that the batch keys are pairwise
distinct and disjoint from every row visible at entry. -/
lemma insertAll_ok_spec (rs : List RawRecord) :
    ∀ db db2 : SetupDB, insertAll db rs = (db2, none) →
      db2.raw = db.raw ∧ db2.pending = db.pending ++ rs ∧
      (rs.map (fun r => r.customer_id)).Nodup ∧
      (∀ r ∈ rs, ∀ q ∈ visibleRows db, q.customer_id ≠ r.customer_id) := by
  induction rs with
  | nil =>
    intro db db2 h
    simp [insertAll] at h
    subst h
    simp
  | cons r rest ih =>
    intro db db2 h
    unfold insertAll at h
    cases hx : execInsert db r with
    | error e => rw [hx] at h; simp at h
    | ok dbr =>
      rw [hx] at h
      obtain ⟨hdbr, id, hcid, hfresh⟩ := execInsert_ok_spec db dbr r hx
      obtain ⟨hraw, hpend, hnodup, hdisj⟩ := ih dbr db2 h
      have hvis : visibleRows dbr = visibleRows db ++ [r] := by
        rw [hdbr]
        simp [visibleRows, committedRows]
      refine ⟨by rw [hraw, hdbr], by rw [hpend, hdbr]; simp, ?_, ?_⟩
      · refine List.nodup_cons.mpr ⟨?_, hnodup⟩
        intro hmem
        obtain ⟨r2, hr2, hr2cid⟩ := List.mem_map.mp hmem
        exact hdisj r2 hr2 r (by rw [hvis]; simp) (by rw [hr2cid])
      · intro r2 hr2 q hq
        rcases List.mem_cons.mp hr2 with heq | hr2rest
        · subst heq
          rw [hcid]
          exact hfresh q hq
        · exact hdisj r2 hr2rest q (by rw [hvis]; exact List.mem_append_left _ hq)

/-- C2: starting from a clean transaction, ingest_data either commits
the full batch and reports its exact size, or — on a missing file or any
single insert failure, including a duplicate customer_id inside the
batch — rolls everything back, re-raises, and leaves the committed rows
exactly as they were (zero rows of the batch committed). -/
theorem ingest_data_atomic (db : SetupDB) (file : Option (List RawRecord))
    (hpend : db.pending = []) :
    (∀ db2 e, ingest_data db file = .err db2 e →
        committedRows db2 = committedRows db ∧ db2.pending = []) ∧
    (∀ db2 n, ingest_data db file = .ok db2 n →
        ∃ data, file = some data ∧ n = data.length ∧
          committedRows db2 = committedRows db ++ data ∧ db2.pending = []) ∧
    (∀ data, file = some data → ¬ (data.map (fun r => r.customer_id)).Nodup →
        ∃ db2 e, ingest_data db file = .err db2 e ∧
          committedRows db2 = committedRows db ∧ db2.pending = []) := by
  refine ⟨?_, ?_, ?_⟩
  · intro db2 e h
    cases file with
    | none =>
      simp only [ingest_data, IngestResult.err.injEq] at h
      rw [← h.1]
      exact ⟨rfl, rfl⟩
    | some data =>
      simp only [ingest_data] at h
      split at h
      · rename_i db3 e2 hins
        simp only [IngestResult.err.injEq] at h
        rw [← h.1]
        have hraw3 : db3.raw = db.raw := by
          have h4 := insertAll_raw data db
          rw [hins] at h4
          exact h4
        exact ⟨committedRows_congr hraw3, rfl⟩
      · simp at h
  · intro db2 n h
    cases file with
    | none => simp [ingest_data] at h
    | some data =>
      simp only [ingest_data] at h
      split at h
      · simp at h
      · rename_i db3 hins
        simp only [IngestResult.ok.injEq] at h
        obtain ⟨hdb2, hn⟩ := h
        obtain ⟨hraw, hpend3, _, _⟩ := insertAll_ok_spec data db db3 hins
        rw [hpend, List.nil_append] at hpend3
        refine ⟨data, rfl, hn.symm, ?_⟩
        rw [← hdb2]
        cases hr : db.raw with
        | none =>
          cases data with
          | nil =>
            have h3 : db3.raw = none := by rw [hraw, hr]
            constructor
            · show committedRows (commitConn db3) = committedRows db ++ []
              simp [commitConn, committedRows, h3, hr]
            · exact commitConn_pending db3
          | cons r rest =>
            rw [insertAll] at hins
            simp [execInsert, hr] at hins
        | some t =>
          have h3 : db3.raw = some t := by rw [hraw, hr]
          constructor
          · rw [commitConn_committedRows db3 t h3, committedRows_congr hraw, hpend3]
          · exact commitConn_pending db3
  · intro data hfile hnodup
    subst hfile
    rcases hins : insertAll db data with ⟨db3, eo⟩
    cases eo with
    | none =>
      exact absurd (insertAll_ok_spec data db db3 hins).2.2.1 hnodup
    | some e2 =>
      refine ⟨rollbackConn db3, .pg e2, ?_, ?_, rfl⟩
      · simp only [ingest_data, hins]
      · have hraw3 : db3.raw = db.raw := by
          have h4 := insertAll_raw data db
          rw [hins] at h4
          exact h4
        exact committedRows_congr hraw3

/-- A batch of two records sharing customer_id 7. -/
def dupBatch : List RawRecord :=
  [⟨some 7, some "2023-01-15", some 100, none, some "pro"⟩,
   ⟨some 7, some "2023-02-01", some 50, none, some "basic"⟩]

/-- Instantiation of C2 at a database holding one row and a batch with a
duplicated customer_id. -/
theorem ingest_data_atomic_witness :
    dbWithTable.pending = [] ∧
    ((∀ db2 e, ingest_data dbWithTable (some dupBatch) = .err db2 e →
        committedRows db2 = committedRows dbWithTable ∧ db2.pending = []) ∧
     (∀ db2 n, ingest_data dbWithTable (some dupBatch) = .ok db2 n →
        ∃ data, some dupBatch = some data ∧ n = data.length ∧
          committedRows db2 = committedRows dbWithTable ++ data ∧ db2.pending = []) ∧
     (∀ data, some dupBatch = some data →
        ¬ (data.map (fun r => r.customer_id)).Nodup →
        ∃ db2 e, ingest_data dbWithTable (some dupBatch) = .err db2 e ∧
          committedRows db2 = committedRows dbWithTable ∧ db2.pending = [])) :=
  ⟨rfl, ingest_data_atomic dbWithTable (some dupBatch) rfl⟩

/-! Claim C5: shape of the forecast horizon. -/

/-- Folding max over the tail of a strictly sorted list lands on the
list's last element. -/
lemma foldl_max_sorted (rest : List ℚ) : ∀ x : ℚ,
    (x :: rest).Sorted (fun a b => a < b) →
    rest.foldl max x = (x :: rest).getLastD 0 := by
  induction rest with
  | nil => intro x _; rfl
  | cons y rest ih =>
    intro x h
    have hcons := List.sorted_cons.mp h
    have hxy : x ≤ y := (hcons.1 y (by simp)).le
    calc (y :: rest).foldl max x = rest.foldl max (max x y) := rfl
    _ = rest.foldl max y := by rw [max_eq_right hxy]
    _ = (y :: rest).getLastD 0 := ih y hcons.2
    _ = (x :: y :: rest).getLastD 0 := by simp [List.getLastD_cons]

/-- The seed and every element of a list are bounded by the max fold. -/
lemma le_foldl_max (l : List ℚ) : ∀ a : ℚ,
    a ≤ l.foldl max a ∧ ∀ x ∈ l, x ≤ l.foldl max a := by
  induction l with
  | nil => intro a; exact ⟨le_refl a, by simp⟩
  | cons y l ih =>
    intro a
    have h1 := ih (max a y)
    refine ⟨le_trans (le_max_left a y) h1.1, ?_⟩
    intro x hx
    rcases List.mem_cons.mp hx with heq | hmem
    · subst heq
      exact le_trans (le_max_right a x) h1.1
    · exact h1.2 x hmem

/-- In a strictly sorted list every element is bounded by the last one. -/
lemma mem_le_getLastD_of_sorted (xs : List ℚ)
    (hs : xs.Sorted (fun a b => a < b)) : ∀ x ∈ xs, x ≤ xs.getLastD 0 := by
  cases xs with
  | nil => simp
  | cons y rest =>
    intro x hx
    rw [← foldl_max_sorted rest y hs]
    rcases List.mem_cons.mp hx with heq | hmem
    · subst heq
      exact (le_foldl_max rest x).1
    · exact (le_foldl_max rest y).2 x hmem

/-- On a non-empty strictly sorted month-start history, the future frame
is the history followed by the p consecutive months after its last one. -/
lemma make_future_dataframe_sorted (hist : List ℚ) (hne : hist ≠ [])
    (hsort : hist.Sorted (fun a b => a < b)) (p : Nat) :
    make_future_dataframe hist p
      = hist ++ (List.range p).map (fun (k : Nat) => hist.getLastD 0 + ((k : ℚ) + 1)) := by
  unfold make_future_dataframe
  dsimp only
  have hmax : seriesMax hist = hist.getLastD 0 := by
    cases hist with
    | nil => exact absurd rfl hne
    | cons y rest => exact foldl_max_sorted rest y hsort
  rw [hmax]
  congr 1
  rw [List.range_succ_eq_map, List.map_cons, List.map_map, List.filter_cons]
  have hhead : (decide (hist.getLastD 0 < hist.getLastD 0 + ((0 : ℕ) : ℚ))) = false := by
    simp
  rw [hhead, if_neg (by simp : ¬ (false = true))]
  have hall : ∀ b ∈ (List.range p).map
        ((fun (k : Nat) => hist.getLastD 0 + (k : ℚ)) ∘ Nat.succ),
      (decide (hist.getLastD 0 < b)) = true := by
    intro b hb
    obtain ⟨k, _, hk⟩ := List.mem_map.mp hb
    rw [← hk]
    simp only [Function.comp_apply, decide_eq_true_eq]
    have hpos : (0 : ℚ) < ((Nat.succ k : ℕ) : ℚ) := by
      exact_mod_cast Nat.succ_pos k
    linarith
  rw [List.filter_eq_self.mpr hall]
  have hlen : ((List.range p).map
      ((fun (k : Nat) => hist.getLastD 0 + (k : ℚ)) ∘ Nat.succ)).length = p := by
    simp
  rw [List.take_of_length_le (le_of_eq hlen)]
  refine List.map_congr_left ?_
  intro k _
  simp only [Function.comp_apply]
  push_cast
  ring

/-- The ds column of the predict output is its input timestamp list. -/
lemma colValues_predict (l : List ℚ) :
    colValues ⟨prophetPredictCols, l.map predictRow⟩ "ds" = l := by
  show (match colIdx prophetPredictCols "ds" with
        | none => []
        | some i => (l.map predictRow).map (fun r => r.getD i 0)) = l
  rw [show colIdx prophetPredictCols "ds" = some 0 from rfl]
  show (l.map predictRow).map (fun r => r.getD 0 0) = l
  rw [List.map_map]
  have hcomp : ((fun (r : List ℚ) => r.getD 0 0) ∘ predictRow) = id := by
    funext d
    rfl
  rw [hcomp, List.map_id]

/-- Inversion of a successful engine run: the history had at least two
rows and the output is the predict frame over the future timestamps. -/
lemma run_prophet_forecast_ok (df out : DataFrame)
    (h : run_prophet_forecast df = .ok out) :
    2 ≤ df.rows.length ∧
    out = ⟨prophetPredictCols,
           (make_future_dataframe (colValues df "ds") 24).map predictRow⟩ := by
  unfold run_prophet_forecast at h
  split at h
  · exact absurd h (by simp)
  · rename_i hlt
    simp only [Except.ok.injEq] at h
    exact ⟨Nat.le_of_not_lt hlt, h.symm⟩

/-- C5: whenever the engine produces an output from a prepared series
with strictly increasing month-start timestamps whose last month is M,
the output timestamps are the full history followed by exactly 24
consecutive months M+1, ..., M+24; there is one output row per history
timestamp plus 24 more, the maximum output month is exactly M + 24, and
every future month is strictly after M. -/
theorem run_prophet_forecast_horizon (df : DataFrame)
    (hcols : df.cols = ["ds", "y"])
    (hsort : (colValues df "ds").Sorted (fun a b => a < b)) :
    ∀ out, run_prophet_forecast df = .ok out →
      colValues out "ds"
        = colValues df "ds"
          ++ (List.range 24).map (fun (k : Nat) => (colValues df "ds").getLastD 0 + ((k : ℚ) + 1)) ∧
      out.rows.length = df.rows.length + 24 ∧
      (∀ d ∈ colValues out "ds", d ≤ (colValues df "ds").getLastD 0 + 24) ∧
      ((colValues df "ds").getLastD 0 + 24) ∈ colValues out "ds" ∧
      (∀ d ∈ (colValues out "ds").drop df.rows.length,
         (colValues df "ds").getLastD 0 < d) := by
  intro out hok
  obtain ⟨hlen2, hout⟩ := run_prophet_forecast_ok df out hok
  have hhist : colValues df "ds" = df.rows.map (fun r => r.getD 0 0) := by
    unfold colValues
    rw [hcols]
    rfl
  have hlenh : (colValues df "ds").length = df.rows.length := by
    rw [hhist, List.length_map]
  have hne : colValues df "ds" ≠ [] := by
    intro hcontra
    have h0 := congrArg List.length hcontra
    rw [hlenh] at h0
    simp only [List.length_nil] at h0
    omega
  have hfut := make_future_dataframe_sorted (colValues df "ds") hne hsort 24
  have hds : colValues out "ds" = make_future_dataframe (colValues df "ds") 24 := by
    rw [hout]
    exact colValues_predict _
  refine ⟨by rw [hds, hfut], ?_, ?_, ?_, ?_⟩
  · rw [hout]
    show ((make_future_dataframe (colValues df "ds") 24).map predictRow).length = _
    rw [List.length_map, hfut, List.length_append, hlenh]
    simp
  · intro d hd
    rw [hds, hfut] at hd
    rcases List.mem_append.mp hd with hmem | hmem
    · have h1 : d ≤ (colValues df "ds").getLastD 0 :=
        mem_le_getLastD_of_sorted _ hsort d hmem
      linarith
    · obtain ⟨k, hk, hdk⟩ := List.mem_map.mp hmem
      rw [← hdk]
      have hk24 : (k : ℚ) ≤ 23 := by
        have := Nat.le_of_lt_succ (List.mem_range.mp hk)
        exact_mod_cast this
      linarith
  · rw [hds, hfut]
    refine List.mem_append_right _ (List.mem_map.mpr ⟨23, ?_, ?_⟩)
    · simp
    · norm_num
  · intro d hd
    rw [hds, hfut, ← hlenh, List.drop_left] at hd
    obtain ⟨k, _, hdk⟩ := List.mem_map.mp hd
    rw [← hdk]
    have hpos : (0 : ℚ) < (k : ℚ) + 1 := by positivity
    linarith

/-- Instantiation of C5 at the two-month probe series and its engine
output. -/
theorem run_prophet_forecast_horizon_witness :
    probeDF.cols = ["ds", "y"] ∧
    (colValues probeDF "ds").Sorted (fun a b => a < b) ∧
    run_prophet_forecast probeDF = .ok probeForecast ∧
    (colValues probeForecast "ds"
       = colValues probeDF "ds"
         ++ (List.range 24).map (fun (k : Nat) => (colValues probeDF "ds").getLastD 0 + ((k : ℚ) + 1)) ∧
     probeForecast.rows.length = probeDF.rows.length + 24 ∧
     (∀ d ∈ colValues probeForecast "ds", d ≤ (colValues probeDF "ds").getLastD 0 + 24) ∧
     ((colValues probeDF "ds").getLastD 0 + 24) ∈ colValues probeForecast "ds" ∧
     (∀ d ∈ (colValues probeForecast "ds").drop probeDF.rows.length,
        (colValues probeDF "ds").getLastD 0 < d)) :=
  ⟨rfl, by decide, rfl,
   run_prophet_forecast_horizon probeDF rfl (by decide) probeForecast rfl⟩

end FFD
